import Mathlib

/-!
Shallow embedding of the two desktop front-ends in this repository:
`llama_gui.py` (the inference GUI, class `LlamaCppGUI`) and
`llama_server_gui.py` (the server GUI, class `LlamaCppServerGUI`).

The embedding models the pure decision logic of each component.  External
facilities are passed in explicitly:

  * the filesystem is a record of predicates (`FS`), standing for
    `os.path.isfile` and `os.access(..., os.X_OK)`;
  * a directory tree (`DirTree`) stands for the portion of the filesystem
    traversed by `os.walk`, with subdirectories listed in traversal order;
  * a spawned child process is a handle (`ProcHandle`) recording whether
    `wait(timeout=5)` returns within the grace period and what `poll()`
    currently reports;
  * HTTP results for the status poller are passed as the outcome values the
    `urllib` calls would produce (`HealthResult`, `ModelsResult`), the
    models payload carrying its JSON shape (`Payload`, `DataField`,
    `DataElem`) so that responses on which the extraction raises an
    exception its `except` clause does not catch are representable; a poll
    tick returns `none` when such an exception escapes.

Side effects (dialogs, terminate/kill, thread spawn, timer scheduling) are
returned as explicit effect lists, and Tk variable state is a record updated
functionally.  Tk `DoubleVar` fields (temperature, top-p) are carried in
their `str()` form, because the code only ever reads them through `str(...)`;
`IntVar` fields are carried as integers, whose `str()` form is decimal.  The
server port is an `Option Int`, `none` standing for the `tk.TclError` that
`self.port.get()` raises when the variable does not hold an integer.
-/

namespace LlamaSpec

/-- Filesystem predicates used by the two applications:
`isfile p` stands for `os.path.isfile(p)` and `access_x p` for
`os.access(p, os.X_OK)`. -/
structure FS where
  isfile : String → Bool
  access_x : String → Bool

/-- Tk widget state constants `tk.NORMAL` and `tk.DISABLED`. -/
inductive ButtonState where
  | normal
  | disabled
deriving DecidableEq, Repr

/-- A handle to a spawned child process (`subprocess.Popen` object).
`exitsWithinGrace` records whether `wait(timeout=5)` returns before the
timeout (rather than raising `subprocess.TimeoutExpired`); `pollResult`
is what `poll()` currently returns (`none` = still running). -/
structure ProcHandle where
  exitsWithinGrace : Bool
  pollResult : Option Int
deriving DecidableEq, Repr

/-- `os.path.join` for one component (path separator abstracted as `/`). -/
def joinPath (d f : String) : String := d ++ "/" ++ f

/-- Python `str.strip()`: drop leading and trailing whitespace.
Implemented by structural recursion on the character list so that concrete
instances reduce inside the kernel. -/
def pyStrip (s : String) : String :=
  String.mk (((s.data.dropWhile Char.isWhitespace).reverse.dropWhile
    Char.isWhitespace).reverse)

end LlamaSpec

namespace LlamaGui

open LlamaSpec

/-- The mutable state of `LlamaCppGUI` that the supervisor logic reads and
writes: the Tk variables, the prompt and output text widgets, the two
run-control buttons, the status bar, the running flag and the process
handle. -/
structure State where
  llama_binary : String
  model_path : String
  prompt_widget : String
  max_tokens : Int
  temperature : String
  top_p : String
  top_k : Int
  is_running : Bool
  process : Option ProcHandle
  run_button : ButtonState
  stop_button : ButtonState
  output : String
  status_var : String
deriving DecidableEq, Repr

/-- Observable side effects of the inference GUI handlers. -/
inductive Effect where
  | dialogError (msg : String)
  | dialogWarning (msg : String)
  | terminate
  | waitExit (timeoutSec : Option Nat)
  | kill
  | spawnThread
deriving DecidableEq, Repr

/-- `LlamaCppGUI.validate_inputs`: returns `none` when validation passes and
`some msg` for the error dialog text of the first failing check. -/
def validate_inputs (fs : FS) (s : State) : Option String :=
  if s.llama_binary = "" ∨ s.llama_binary = "llama-cli not found" then
    some "Please specify the llama-cli binary path."
  else if ¬ fs.isfile s.llama_binary then
    some ("Binary not found: " ++ s.llama_binary)
  else if s.model_path = "" then
    some "Please select a model file."
  else if ¬ fs.isfile s.model_path then
    some ("Model file not found: " ++ s.model_path)
  else if pyStrip s.prompt_widget = "" then
    some "Please enter a prompt."
  else
    none

/-- `LlamaCppGUI.run_inference`: validate, reject when already running,
otherwise flip the buttons, set the running flag, clear the output and start
the worker thread. -/
def run_inference (fs : FS) (s : State) : State × List Effect :=
  match validate_inputs fs s with
  | some msg => (s, [Effect.dialogError msg])
  | none =>
    if s.is_running then
      (s, [Effect.dialogWarning "Inference is already running."])
    else
      ({ s with run_button := ButtonState.disabled,
                stop_button := ButtonState.normal,
                is_running := true,
                output := "" },
       [Effect.spawnThread])

/-- The argument vector built inside `LlamaCppGUI._run_inference_thread`
from the field values current at launch time. -/
def cliCommand (s : State) : List String :=
  [ s.llama_binary,
    "-m", s.model_path,
    "-p", pyStrip s.prompt_widget,
    "-n", toString s.max_tokens,
    "--temp", s.temperature,
    "--top-p", s.top_p,
    "--top-k", toString s.top_k ]

/-- `LlamaCppGUI.stop_inference`: guarded by `self.process and
self.is_running`; terminates, waits up to 5 seconds, kills on timeout, then
updates status text, output and buttons. -/
def stop_inference (s : State) : State × List Effect :=
  match s.process with
  | none => (s, [])
  | some p =>
    if s.is_running then
      ({ s with is_running := false,
                status_var := "Inference stopped by user",
                output := s.output ++ "\n\n=== Inference stopped by user ===\n",
                run_button := ButtonState.normal,
                stop_button := ButtonState.disabled },
       [Effect.terminate, Effect.waitExit (some 5)] ++
         (if p.exitsWithinGrace then [] else [Effect.kill]))
    else (s, [])

end LlamaGui

namespace LlamaServerGui

open LlamaSpec

/-- The mutable state of `LlamaCppServerGUI` read and written by the
supervisor, restart and polling logic.  `port` is `none` when the Tk
integer variable does not hold an integer (reading it raises
`tk.TclError`). -/
structure State where
  server_binary : String
  model_path : String
  host : String
  port : Option Int
  temperature : String
  context_size : Int
  threads : Int
  endpoint_url : String
  server_status : String
  current_model : String
  is_running : Bool
  process : Option ProcHandle
  start_button : ButtonState
  stop_button : ButtonState
  apply_button : ButtonState
  output : String
  status_var : String
deriving DecidableEq, Repr

/-- Observable side effects of the server GUI handlers. -/
inductive Effect where
  | dialogError (msg : String)
  | dialogWarning (msg : String)
  | terminate
  | waitExit (timeoutSec : Option Nat)
  | kill
  | spawnThread
deriving DecidableEq, Repr

/-- `LlamaCppServerGUI.RESTART_POLL_DELAY_MS`. -/
def RESTART_POLL_DELAY_MS : Nat := 100

/-- `LlamaCppServerGUI.validate_inputs`: returns `none` when validation
passes and `some msg` for the error dialog text of the first failing
check. -/
def validate_inputs (fs : FS) (s : State) : Option String :=
  if s.server_binary = "" ∨ s.server_binary = "llama-server not found" then
    some "Please specify the llama-server binary path."
  else if ¬ fs.isfile s.server_binary then
    some ("Binary not found: " ++ s.server_binary)
  else if s.model_path = "" then
    some "Please select a model file."
  else if ¬ fs.isfile s.model_path then
    some ("Model file not found: " ++ s.model_path)
  else if pyStrip s.host = "" then
    some "Please enter a host address."
  else
    match s.port with
    | none => some "Please enter a valid port (1-65535)."
    | some port =>
      if port < 1 ∨ port > 65535 then some "Please enter a valid port (1-65535)."
      else none

/-- `LlamaCppServerGUI.build_command`: the argument vector derived from the
current field values; `none` when reading the port raises `tk.TclError`. -/
def build_command (s : State) : Option (List String) :=
  match s.port with
  | none => none
  | some port =>
    some [ s.server_binary,
           "--model", s.model_path,
           "--host", pyStrip s.host,
           "--port", toString port,
           "--temp", s.temperature,
           "--ctx-size", toString s.context_size,
           "--threads", toString s.threads ]

/-- `LlamaCppServerGUI.start_server`: validate, reject when already running,
otherwise set the running flag, flip the buttons, mark the status as
starting, clear the output and start the worker thread. -/
def start_server (fs : FS) (s : State) : State × List Effect :=
  match validate_inputs fs s with
  | some msg => (s, [Effect.dialogError msg])
  | none =>
    if s.is_running then
      (s, [Effect.dialogWarning "Server is already running."])
    else
      ({ s with is_running := true,
                start_button := ButtonState.disabled,
                stop_button := ButtonState.normal,
                apply_button := ButtonState.normal,
                server_status := "Starting...",
                output := "" },
       [Effect.spawnThread])

/-- `LlamaCppServerGUI.stop_server`: guarded by `self.process and
self.is_running`; terminates, waits up to 5 seconds, kills on timeout, then
updates status text, output, buttons and the status label. -/
def stop_server (s : State) : State × List Effect :=
  match s.process with
  | none => (s, [])
  | some p =>
    if s.is_running then
      ({ s with is_running := false,
                status_var := "Server stopped by user.",
                output := s.output ++ "\n\n=== Server stopped by user ===\n",
                start_button := ButtonState.normal,
                stop_button := ButtonState.disabled,
                apply_button := ButtonState.normal,
                server_status := "Stopped" },
       [Effect.terminate, Effect.waitExit (some 5)] ++
         (if p.exitsWithinGrace then [] else [Effect.kill]))
    else (s, [])

/-- The decision taken by one invocation of
`LlamaCppServerGUI._restart_server_after_stop`: either invoke
`start_server` now, or schedule the next readiness check after
`delay_ms` milliseconds (via `_schedule_restart_check`). -/
inductive RestartAction where
  | startNow
  | reschedule (delay_ms : Nat)
deriving DecidableEq, Repr

/-- `LlamaCppServerGUI._restart_server_after_stop`: reschedule while the
running flag is still set; with no process handle start immediately;
with a process handle start only once `poll()` reports a non-`None`
exit status, rescheduling otherwise. -/
def restart_server_after_stop (s : State) (delay_ms : Nat) : RestartAction :=
  if s.is_running then RestartAction.reschedule delay_ms
  else
    match s.process with
    | none => RestartAction.startNow
    | some process =>
      match process.pollResult with
      | none => RestartAction.reschedule delay_ms
      | some _ => RestartAction.startNow

/-- Outcome of the `urlopen(health_url, timeout=2)` call:
`ok status` when a response object is returned with the given HTTP status,
`err` when the call raises `urllib.error.URLError` (connection error or
timeout) or `ValueError`. -/
inductive HealthResult where
  | ok (status : Nat)
  | err
deriving DecidableEq, Repr

/-- One element of the `data` array of the parsed `/v1/models` payload:
either a JSON object — `id` carrying the value of its `id` field when
present (modeled as the string it renders to) — or any non-object value,
on which `element.get("id", "Unknown")` raises an uncaught
`AttributeError`. -/
inductive DataElem where
  | obj (id : Option String)
  | nonObjElem
deriving DecidableEq, Repr

/-- The value of the `data` field of the parsed payload:
a JSON array (possibly empty, which Python treats as falsy); a falsy
non-array value (`0`, `""`, `{}`, `false`, `null`), for which the
`if data:` branch is skipped; or a truthy non-array value (a non-zero
number, non-empty string or object, `true`), on which `data[0]` or the
subsequent `.get` raises an uncaught
`TypeError`/`KeyError`/`AttributeError`. -/
inductive DataField where
  | list (items : List DataElem)
  | scalarFalsy
  | scalarTruthy
deriving DecidableEq, Repr

/-- The value produced by `json.loads` on the models response body:
a JSON object — `data` carrying its `data` field when present (the code
defaults an absent field to `[]`) — or any non-object JSON value (array,
number, string, boolean, null), on which `payload.get("data", [])` raises
an uncaught `AttributeError`. -/
inductive Payload where
  | obj (data : Option DataField)
  | nonObj
deriving DecidableEq, Repr

/-- Outcome of the `urlopen(models_url, timeout=2)` call followed by
`response.read().decode("utf-8")` and `json.loads`: `ok payload` when all
of them succeed, `err` when the fetch raises `URLError` or decoding
raises `ValueError` (including `UnicodeDecodeError`) or
`json.JSONDecodeError` — the exceptions the `except` clause catches. -/
inductive ModelsResult where
  | ok (payload : Payload)
  | err
deriving DecidableEq, Repr

/-- What one tick of `LlamaCppServerGUI.poll_server_status` does: the new
values of the status and model labels, the dialogs raised, the derived
URLs, and the delay after which the next poll is scheduled. -/
structure PollResult where
  server_status : String
  current_model : String
  dialogs : List String
  health_url : String
  models_url : String
  next_delay_ms : Nat
deriving DecidableEq, Repr

/-- The `status_label` computed from the health call: `Online` exactly on
a 200 response, `Offline` on any other status or a caught exception. -/
def statusLabel (health : HealthResult) : String :=
  match health with
  | HealthResult.ok 200 => "Online"
  | _ => "Offline"

/-- The `model_label` computed by the models block when the status is
`Online` (`llama_server_gui.py` lines 482-489): `some label` when the
block completes (either normally or through its `except` clause), `none`
when the extraction raises an exception the `except` clause does not
catch — a parseable payload that is not an object, a truthy non-array
`data` field, or a non-object first element. -/
def modelLabelOnline (models : ModelsResult) : Option String :=
  match models with
  | ModelsResult.err => some "Unknown"
  | ModelsResult.ok Payload.nonObj => none
  | ModelsResult.ok (Payload.obj dataVal) =>
    match dataVal.getD (DataField.list []) with
    | DataField.list [] => some "Unknown"
    | DataField.list (DataElem.obj id :: _) => some (id.getD "Unknown")
    | DataField.list (DataElem.nonObjElem :: _) => none
    | DataField.scalarFalsy => some "Unknown"
    | DataField.scalarTruthy => none

/-- `LlamaCppServerGUI.poll_server_status`: one tick, with the outcomes of
the two HTTP calls passed in.  An empty endpoint URL short-circuits to
`Invalid endpoint`; otherwise health decides Online/Offline and, when
Online, the models payload decides the model label.  A completed tick
(`some r`) raises no dialog and schedules the next poll 5000 ms later;
`none` models a tick whose extraction raises an uncaught exception, so
that neither label is set and, decisively, the reschedule never runs. -/
def poll_server_status (endpoint_url : String) (health : HealthResult)
    (models : ModelsResult) : Option PollResult :=
  if pyStrip endpoint_url = "" then
    some { server_status := "Invalid endpoint", current_model := "Unknown",
           dialogs := [], health_url := "", models_url := "",
           next_delay_ms := 5000 }
  else
    match (if statusLabel health = "Online" then modelLabelOnline models
           else some "Unknown") with
    | none => none
    | some model_label =>
      some { server_status := statusLabel health,
             current_model := model_label,
             dialogs := [],
             health_url := (pyStrip endpoint_url).replace "/v1" "/health",
             models_url := pyStrip endpoint_url ++ "/models",
             next_delay_ms := 5000 }

end LlamaServerGui

namespace LlamaSpec

/-- A directory as seen by `os.walk`: its path, the plain files it holds
and its subdirectories in traversal order.  `os.walk` visits the node
first, then each subtree in order (top-down walk). -/
inductive DirTree where
  | mk (path : String) (files : List String) (subdirs : List DirTree)

/-- The path of the directory. -/
def DirTree.path : DirTree → String
  | DirTree.mk p _ _ => p

/-- The plain files directly in the directory. -/
def DirTree.files : DirTree → List String
  | DirTree.mk _ f _ => f

/-- The subdirectories in traversal order. -/
def DirTree.subdirs : DirTree → List DirTree
  | DirTree.mk _ _ s => s

/-- One directory visited by a walk: `depth` is
`os.path.relpath(walk_root, base_path).count(os.sep)`, which is `0` both
for the base itself (relative path `.`) and for its immediate children,
and grows by one with each further level. -/
structure WalkEntry where
  depth : Nat
  path : String
  files : List String
deriving DecidableEq, Repr

end LlamaSpec


namespace LlamaGui

open LlamaSpec

mutual

/-- The sequence of directories yielded by `os.walk` over one winget base
path, as iterated by `LlamaCppGUI.detect_llama_binary`: the node first,
then each subtree in order, with no pruning.  `d` is the depth measure of
the node (its relative-path separator count). -/
def cliWalkYieldedAux : Nat → DirTree → List WalkEntry
  | d, DirTree.mk p files subs =>
    { depth := d, path := p, files := files } :: cliWalkYieldedListAux (d + 1) subs

/-- `cliWalkYieldedAux` over a list of subtrees in order. -/
def cliWalkYieldedListAux : Nat → List DirTree → List WalkEntry
  | _, [] => []
  | d, t :: ts => cliWalkYieldedAux d t ++ cliWalkYieldedListAux d ts

end

/-- The walk sequence over a whole winget base path: the base has depth
measure `0` and so do its immediate children (the relative path of a child
has no separator). -/
def cliWalkYielded (t : DirTree) : List WalkEntry :=
  { depth := 0, path := t.path, files := t.files } :: cliWalkYieldedListAux 0 t.subdirs

/-- The body of the `for root, dirs, files in os.walk(base_path)` loop in
`detect_llama_binary`, applied to one yielded directory: prefer
`llama-cli.exe`, then `llama-cli`, by membership in the file list. -/
def cliWalkHit (e : WalkEntry) : Option String :=
  if e.files.contains "llama-cli.exe" then some (joinPath e.path "llama-cli.exe")
  else if e.files.contains "llama-cli" then some (joinPath e.path "llama-cli")
  else none

/-- The walk loop of `detect_llama_binary` over one winget base path:
return at the first hit. -/
def cliWalkFind (t : DirTree) : Option String :=
  (cliWalkYielded t).findSome? cliWalkHit

/-- The search environment of the binary locators: the platform, the winget
base paths (paired with whether `os.path.exists` holds for them, in the
order the code lists them) and their walk trees, the PATH entries in order,
the filesystem predicates, and `os.path.abspath`. -/
structure SearchEnv where
  windows : Bool
  wingetRoots : List (Bool × DirTree)
  pathDirs : List String
  fs : FS
  abspath : String → String

/-- The PATH candidate name of `detect_llama_binary`: `llama-cli`, with
`.exe` on Windows. -/
def cliBinaryName (windows : Bool) : String :=
  if windows then "llama-cli.exe" else "llama-cli"

/-- The winget phase of `detect_llama_binary`: on Windows, walk each
existing winget base path in order; elsewhere this phase is skipped. -/
def cliWingetPhase (env : SearchEnv) : Option String :=
  if env.windows then
    env.wingetRoots.findSome? (fun r => if r.1 then cliWalkFind r.2 else none)
  else none

/-- The PATH phase of `detect_llama_binary`: the candidate name joined to
each PATH entry in order, accepted when it is an existing file with the
execute permission. -/
def cliPathPhase (env : SearchEnv) : Option String :=
  env.pathDirs.findSome? (fun d =>
    if env.fs.isfile (joinPath d (cliBinaryName env.windows)) &&
        env.fs.access_x (joinPath d (cliBinaryName env.windows)) then
      some (joinPath d (cliBinaryName env.windows))
    else none)

/-- The build-directory phase of `detect_llama_binary`: the candidate name
joined to each of the three relative build directories in order, accepted
when it is an existing file (no execute-permission check), returned as an
absolute path. -/
def cliBuildPhase (env : SearchEnv) : Option String :=
  ([ "build/bin", "./build/bin", "../build/bin" ] : List String).findSome? (fun d =>
    if env.fs.isfile (joinPath d (cliBinaryName env.windows)) then
      some (env.abspath (joinPath d (cliBinaryName env.windows)))
    else none)

/-- `LlamaCppGUI.detect_llama_binary`: the three phases in order, each
`return` cutting off the rest; else the sentinel. -/
def detect_llama_binary (env : SearchEnv) : String :=
  match cliWingetPhase env with
  | some p => p
  | none =>
    match cliPathPhase env with
    | some p => p
    | none =>
      match cliBuildPhase env with
      | some p => p
      | none => "llama-cli not found"

end LlamaGui

namespace LlamaServerGuiDetect

open LlamaSpec

/-- The candidate file names tried in each directory by
`LlamaCppServerGUI.detect_server_binary`: `llama-server` and `server`, with
`.exe` appended on Windows. -/
def binaryNames (windows : Bool) : List String :=
  if windows then ["llama-server.exe", "server.exe"] else ["llama-server", "server"]

/-- The first candidate name present in a file list, as in the inner
`for candidate in binary_names` loop. -/
def findCandidate (names files : List String) : Option String :=
  names.find? (fun c => files.contains c)

mutual

/-- The sequence of directories yielded by the pruned `os.walk` in
`detect_server_binary`, with `d` the depth measure of the node
(`os.path.relpath(walk_root, base_path).count(os.sep)`).  A node is always
yielded when reached, but once its measure exceeds `4` the loop body sets
`dirs[:] = []`, so its subdirectories are never entered. -/
def srvWalkYieldedAux : Nat → DirTree → List WalkEntry
  | d, DirTree.mk p files subs =>
    { depth := d, path := p, files := files } ::
      (if d > 4 then [] else srvWalkYieldedListAux (d + 1) subs)

/-- `srvWalkYieldedAux` over a list of subtrees in order. -/
def srvWalkYieldedListAux : Nat → List DirTree → List WalkEntry
  | _, [] => []
  | d, t :: ts => srvWalkYieldedAux d t ++ srvWalkYieldedListAux d ts

end

/-- The pruned walk sequence over a whole winget base path: the base has
depth measure `0` and so do its immediate children. -/
def srvWalkYielded (t : DirTree) : List WalkEntry :=
  { depth := 0, path := t.path, files := t.files } :: srvWalkYieldedListAux 0 t.subdirs

/-- The body of the walk loop in `detect_server_binary`, applied to one
yielded directory: skip it (`continue`) when its depth measure exceeds
`4`, otherwise return the first candidate name present in its files. -/
def srvWalkHit (names : List String) (e : WalkEntry) : Option String :=
  if e.depth > 4 then none
  else (findCandidate names e.files).map (fun c => joinPath e.path c)

/-- The walk loop of `detect_server_binary` over one winget base path:
return at the first hit. -/
def srvWalkFind (names : List String) (t : DirTree) : Option String :=
  (srvWalkYielded t).findSome? (srvWalkHit names)

/-- The directories whose file lists `detect_server_binary` actually
examines: the yielded ones the loop body does not skip. -/
def srvWalkExamined (t : DirTree) : List WalkEntry :=
  (srvWalkYielded t).filter (fun e => e.depth ≤ 4)

/-- The winget phase of `detect_server_binary`: on Windows, the
depth-limited walk over each existing winget base path in order; elsewhere
this phase is skipped. -/
def srvWingetPhase (env : LlamaGui.SearchEnv) : Option String :=
  if env.windows then
    env.wingetRoots.findSome? (fun r =>
      if r.1 then srvWalkFind (binaryNames env.windows) r.2 else none)
  else none

/-- The PATH phase of `detect_server_binary`: for each non-empty PATH
entry in order, the first candidate name that joins to an existing file
with the execute permission. -/
def srvPathPhase (env : LlamaGui.SearchEnv) : Option String :=
  (env.pathDirs.filter (fun d => d ≠ "")).findSome? (fun d =>
    (binaryNames env.windows).findSome? (fun c =>
      if env.fs.isfile (joinPath d c) && env.fs.access_x (joinPath d c) then
        some (joinPath d c)
      else none))

/-- The build-directory phase of `detect_server_binary`: for each of the
three relative build directories in order, the first candidate name that
joins to an existing file (no execute-permission check), returned as an
absolute path. -/
def srvBuildPhase (env : LlamaGui.SearchEnv) : Option String :=
  ([ "build/bin", "./build/bin", "../build/bin" ] : List String).findSome? (fun d =>
    (binaryNames env.windows).findSome? (fun c =>
      if env.fs.isfile (joinPath d c) then some (env.abspath (joinPath d c))
      else none))

/-- `LlamaCppServerGUI.detect_server_binary`: the three phases in order,
each `return` cutting off the rest; else the sentinel. -/
def detect_server_binary (env : LlamaGui.SearchEnv) : String :=
  match srvWingetPhase env with
  | some p => p
  | none =>
    match srvPathPhase env with
    | some p => p
    | none =>
      match srvBuildPhase env with
      | some p => p
      | none => "llama-server not found"

end LlamaServerGuiDetect

namespace LlamaSpec

/-- A first-match scan is the head of the list of all matches. -/
theorem findSome?_eq_head?_filterMap {α β : Type} (f : α → Option β) :
    ∀ l : List α, l.findSome? f = (l.filterMap f).head? := by
  intro l
  induction l with
  | nil => rfl
  | cons a l ih =>
    cases h : f a with
    | none => rw [List.findSome?_cons, List.filterMap_cons, h]; exact ih
    | some b => rw [List.findSome?_cons, List.filterMap_cons, h]; rfl

/-- The head of an appended list. -/
theorem head?_append_or {α : Type} (l₁ l₂ : List α) :
    (l₁ ++ l₂).head? = (l₁.head?).or l₂.head? := by
  cases l₁ <;> simp [Option.or]

/-- Scanning for the first nonempty per-element list finds the head of the
concatenation. -/
theorem findSome?_head?_flatMap {α β : Type} (g : α → List β) :
    ∀ l : List α, l.findSome? (fun a => (g a).head?) = (l.flatMap g).head? := by
  intro l
  induction l with
  | nil => rfl
  | cons a l ih =>
    simp only [List.findSome?_cons, List.flatMap_cons, head?_append_or]
    cases h : (g a).head? with
    | none => simpa [Option.or, h] using ih
    | some b => simp [Option.or, h]

/-- Pointwise-equal scan functions scan alike. -/
theorem findSome?_ext {α β : Type} (f g : α → Option β) (h : ∀ a, f a = g a) :
    ∀ l : List α, l.findSome? f = l.findSome? g := by
  intro l
  induction l with
  | nil => rfl
  | cons a l ih => simp only [List.findSome?_cons, h a, ih]

/-- A guarded scan is a scan of the filtered list. -/
theorem findSome?_guard_eq_filter {α β : Type} (p : α → Bool) (f : α → Option β) :
    ∀ l : List α,
      l.findSome? (fun a => if p a then f a else none) =
        (l.filter p).findSome? f := by
  intro l
  induction l with
  | nil => rfl
  | cons a l ih =>
    by_cases hp : p a <;>
      simp [List.findSome?_cons, List.filter_cons, hp, ih]

/-- A scan accepting mapped-and-tested elements is the head of the mapped,
filtered, post-processed list. -/
theorem findSome?_if_map {α β γ : Type} (f : α → β) (p : β → Bool) (h : β → γ) :
    ∀ l : List α,
      l.findSome? (fun a => if p (f a) then some (h (f a)) else none) =
        (((l.map f).filter p).map h).head? := by
  intro l
  induction l with
  | nil => rfl
  | cons a l ih =>
    by_cases hp : p (f a) <;>
      simp [List.findSome?_cons, List.filter_cons, hp, ih]

end LlamaSpec

namespace LlamaServerGuiDetect

open LlamaSpec

/-- Every directory the pruned walk yields below a node reached at measure
at most `5` has measure at most `5` (the pruning stops descent). -/
theorem srvWalkYieldedAux_depth_le :
    ∀ (d : Nat) (t : DirTree), d ≤ 5 → ∀ e ∈ srvWalkYieldedAux d t, e.depth ≤ 5 :=
  srvWalkYieldedAux.induct
    (fun d t => d ≤ 5 → ∀ e ∈ srvWalkYieldedAux d t, e.depth ≤ 5)
    (fun d l => d ≤ 5 → ∀ e ∈ srvWalkYieldedListAux d l, e.depth ≤ 5)
    (by
      intro d p files subs ih hd e he
      rw [srvWalkYieldedAux] at he
      rcases List.mem_cons.mp he with h | h
      · subst h; exact hd
      · by_cases h4 : d > 4
        · simp [h4] at h
        · simp only [if_neg h4] at h
          exact ih (by omega) e h)
    (by intro x hd e he; simp [srvWalkYieldedListAux] at he)
    (by
      intro d t ts ih1 ih2 hd e he
      rw [srvWalkYieldedListAux] at he
      rcases List.mem_append.mp he with h | h
      · exact ih1 hd e h
      · exact ih2 hd e h)

/-- List version of `srvWalkYieldedAux_depth_le`. -/
theorem srvWalkYieldedListAux_depth_le (d : Nat) (l : List DirTree) (hd : d ≤ 5) :
    ∀ e ∈ srvWalkYieldedListAux d l, e.depth ≤ 5 := by
  induction l with
  | nil => simp [srvWalkYieldedListAux]
  | cons t ts ih =>
    intro e he
    rw [srvWalkYieldedListAux] at he
    rcases List.mem_append.mp he with h | h
    · exact srvWalkYieldedAux_depth_le d t hd e h
    · exact ih e h

/-- Every directory the pruned walk yields has measure at most `5`. -/
theorem srvWalkYielded_depth_le (t : DirTree) :
    ∀ e ∈ srvWalkYielded t, e.depth ≤ 5 := by
  intro e he
  rw [srvWalkYielded] at he
  rcases List.mem_cons.mp he with h | h
  · subst h; exact Nat.zero_le 5
  · exact srvWalkYieldedListAux_depth_le 0 t.subdirs (by omega) e h

/-- Every directory whose files the pruned walk examines has measure at
most `4`. -/
theorem srvWalkExamined_depth_le (t : DirTree) :
    ∀ e ∈ srvWalkExamined t, e.depth ≤ 4 := by
  intro e he
  have := List.of_mem_filter he
  simpa using this

/-- The walk loop body skips every directory with measure above `4`. -/
theorem srvWalkHit_skip (names : List String) (e : WalkEntry) (h : 4 < e.depth) :
    srvWalkHit names e = none := by
  simp [srvWalkHit, h]

end LlamaServerGuiDetect

namespace LlamaSpec

/-- Specialization of the guarded-scan lemma: accepting the mapped element
itself. -/
theorem findSome?_if_self {α β : Type} (f : α → β) (p : β → Bool) :
    ∀ l : List α,
      l.findSome? (fun a => if p (f a) then some (f a) else none) =
        ((l.map f).filter p).head? := by
  intro l
  induction l with
  | nil => rfl
  | cons a l ih =>
    by_cases hp : p (f a) <;>
      simp [List.findSome?_cons, List.filter_cons, hp, ih]

end LlamaSpec

namespace LlamaGui

open LlamaSpec

/-- The winget-walk hits the loop of `detect_llama_binary` would accept,
in walk order: a per-directory preferred candidate name present in the
file list, with no depth limit and no file-kind or permission check. -/
def cliWalkMatches (t : DirTree) : List String :=
  (cliWalkYielded t).filterMap cliWalkHit

/-- The walk loop returns the first walk match. -/
theorem cliWalkFind_eq_head (t : DirTree) :
    cliWalkFind t = (cliWalkMatches t).head? :=
  findSome?_eq_head?_filterMap cliWalkHit (cliWalkYielded t)

/-- All winget-walk matches of `detect_llama_binary`, across the existing
winget roots in order (empty off Windows). -/
def cliWingetMatchesAll (env : SearchEnv) : List String :=
  if env.windows then
    (env.wingetRoots.filter (fun r => r.1)).flatMap (fun r => cliWalkMatches r.2)
  else []

/-- The PATH candidates `detect_llama_binary` accepts, in order: existing
files with the execute permission. -/
def cliPathAccepted (env : SearchEnv) : List String :=
  (env.pathDirs.map (fun d => joinPath d (cliBinaryName env.windows))).filter
    (fun bp => env.fs.isfile bp && env.fs.access_x bp)

/-- The build-directory candidates `detect_llama_binary` accepts, in
order: existing files (no execute-permission check), as absolute paths. -/
def cliBuildAccepted (env : SearchEnv) : List String :=
  ((([ "build/bin", "./build/bin", "../build/bin" ] : List String).map
      (fun d => joinPath d (cliBinaryName env.windows))).filter
    (fun bp => env.fs.isfile bp)).map env.abspath

/-- Every candidate `detect_llama_binary` would accept, in its search
order. -/
def cliAcceptedCandidates (env : SearchEnv) : List String :=
  cliWingetMatchesAll env ++ cliPathAccepted env ++ cliBuildAccepted env

/-- The winget phase returns the first winget-walk match. -/
theorem cliWingetPhase_eq_head (env : SearchEnv) :
    cliWingetPhase env = (cliWingetMatchesAll env).head? := by
  by_cases hw : env.windows
  · simp only [cliWingetPhase, cliWingetMatchesAll, if_pos hw]
    rw [findSome?_guard_eq_filter (fun r : Bool × DirTree => r.1)
        (fun r : Bool × DirTree => cliWalkFind r.2) env.wingetRoots]
    rw [findSome?_ext (fun r : Bool × DirTree => cliWalkFind r.2)
        (fun r : Bool × DirTree => (cliWalkMatches r.2).head?)
        (fun r => cliWalkFind_eq_head r.2)]
    exact findSome?_head?_flatMap _ _
  · simp [cliWingetPhase, cliWingetMatchesAll, hw]

/-- The PATH phase returns the first accepted PATH candidate. -/
theorem cliPathPhase_eq_head (env : SearchEnv) :
    cliPathPhase env = (cliPathAccepted env).head? :=
  findSome?_if_self (fun d => joinPath d (cliBinaryName env.windows))
    (fun bp => env.fs.isfile bp && env.fs.access_x bp) env.pathDirs

/-- The build phase returns the first accepted build-directory
candidate. -/
theorem cliBuildPhase_eq_head (env : SearchEnv) :
    cliBuildPhase env = (cliBuildAccepted env).head? :=
  findSome?_if_map (fun d => joinPath d (cliBinaryName env.windows))
    (fun bp => env.fs.isfile bp) env.abspath
    [ "build/bin", "./build/bin", "../build/bin" ]

/-- `detect_llama_binary` returns the first accepted candidate in search
order, the sentinel when none exists. -/
theorem detect_llama_binary_eq_head (env : SearchEnv) :
    detect_llama_binary env =
      ((cliAcceptedCandidates env).head?).getD "llama-cli not found" := by
  unfold detect_llama_binary cliAcceptedCandidates
  rw [head?_append_or, head?_append_or, ← cliWingetPhase_eq_head,
    ← cliPathPhase_eq_head, ← cliBuildPhase_eq_head]
  cases cliWingetPhase env <;> cases cliPathPhase env <;> cases cliBuildPhase env <;>
    simp [Option.or]

end LlamaGui

namespace LlamaServerGuiDetect

open LlamaSpec

/-- The winget-walk hits the loop of `detect_server_binary` would accept,
in walk order: the first candidate name present in the file list of each
non-skipped directory, with no file-kind or permission check. -/
def srvWalkMatches (names : List String) (t : DirTree) : List String :=
  (srvWalkYielded t).filterMap (srvWalkHit names)

/-- The depth-limited walk loop returns the first walk match. -/
theorem srvWalkFind_eq_head (names : List String) (t : DirTree) :
    srvWalkFind names t = (srvWalkMatches names t).head? :=
  findSome?_eq_head?_filterMap (srvWalkHit names) (srvWalkYielded t)

/-- All winget-walk matches of `detect_server_binary`, across the existing
winget roots in order (empty off Windows). -/
def srvWingetMatchesAll (env : LlamaGui.SearchEnv) : List String :=
  if env.windows then
    (env.wingetRoots.filter (fun r => r.1)).flatMap
      (fun r => srvWalkMatches (binaryNames env.windows) r.2)
  else []

/-- The PATH candidates `detect_server_binary` accepts, in order: for each
non-empty PATH entry, each candidate name that is an existing file with
the execute permission. -/
def srvPathAccepted (env : LlamaGui.SearchEnv) : List String :=
  (env.pathDirs.filter (fun d => d ≠ "")).flatMap (fun d =>
    ((binaryNames env.windows).map (fun c => joinPath d c)).filter
      (fun bp => env.fs.isfile bp && env.fs.access_x bp))

/-- The build-directory candidates `detect_server_binary` accepts, in
order: each candidate name that is an existing file (no execute-permission
check), as an absolute path. -/
def srvBuildAccepted (env : LlamaGui.SearchEnv) : List String :=
  ([ "build/bin", "./build/bin", "../build/bin" ] : List String).flatMap (fun d =>
    (((binaryNames env.windows).map (fun c => joinPath d c)).filter
      (fun bp => env.fs.isfile bp)).map env.abspath)

/-- Every candidate `detect_server_binary` would accept, in its search
order. -/
def srvAcceptedCandidates (env : LlamaGui.SearchEnv) : List String :=
  srvWingetMatchesAll env ++ srvPathAccepted env ++ srvBuildAccepted env

/-- The winget phase returns the first winget-walk match. -/
theorem srvWingetPhase_eq_head (env : LlamaGui.SearchEnv) :
    srvWingetPhase env = (srvWingetMatchesAll env).head? := by
  by_cases hw : env.windows
  · simp only [srvWingetPhase, srvWingetMatchesAll, if_pos hw]
    rw [findSome?_guard_eq_filter (fun r : Bool × DirTree => r.1)
        (fun r : Bool × DirTree => srvWalkFind (binaryNames env.windows) r.2)
        env.wingetRoots]
    rw [findSome?_ext (fun r : Bool × DirTree => srvWalkFind (binaryNames env.windows) r.2)
        (fun r : Bool × DirTree => (srvWalkMatches (binaryNames env.windows) r.2).head?)
        (fun r => srvWalkFind_eq_head (binaryNames env.windows) r.2)]
    exact findSome?_head?_flatMap _ _
  · simp [srvWingetPhase, srvWingetMatchesAll, hw]

/-- The PATH phase returns the first accepted PATH candidate. -/
theorem srvPathPhase_eq_head (env : LlamaGui.SearchEnv) :
    srvPathPhase env = (srvPathAccepted env).head? := by
  unfold srvPathPhase srvPathAccepted
  rw [findSome?_ext
      (fun d => (binaryNames env.windows).findSome? (fun c =>
        if env.fs.isfile (joinPath d c) && env.fs.access_x (joinPath d c) then
          some (joinPath d c)
        else none))
      (fun d => (((binaryNames env.windows).map (fun c => joinPath d c)).filter
        (fun bp => env.fs.isfile bp && env.fs.access_x bp)).head?)
      (fun d => findSome?_if_self (fun c => joinPath d c)
        (fun bp => env.fs.isfile bp && env.fs.access_x bp) (binaryNames env.windows))]
  exact findSome?_head?_flatMap _ _

/-- The build phase returns the first accepted build-directory
candidate. -/
theorem srvBuildPhase_eq_head (env : LlamaGui.SearchEnv) :
    srvBuildPhase env = (srvBuildAccepted env).head? := by
  unfold srvBuildPhase srvBuildAccepted
  rw [findSome?_ext
      (fun d => (binaryNames env.windows).findSome? (fun c =>
        if env.fs.isfile (joinPath d c) then some (env.abspath (joinPath d c))
        else none))
      (fun d => ((((binaryNames env.windows).map (fun c => joinPath d c)).filter
        (fun bp => env.fs.isfile bp)).map env.abspath).head?)
      (fun d => findSome?_if_map (fun c => joinPath d c)
        (fun bp => env.fs.isfile bp) env.abspath (binaryNames env.windows))]
  exact findSome?_head?_flatMap _ _

/-- `detect_server_binary` returns the first accepted candidate in search
order, the sentinel when none exists. -/
theorem detect_server_binary_eq_head (env : LlamaGui.SearchEnv) :
    detect_server_binary env =
      ((srvAcceptedCandidates env).head?).getD "llama-server not found" := by
  unfold detect_server_binary srvAcceptedCandidates
  rw [head?_append_or, head?_append_or, ← srvWingetPhase_eq_head,
    ← srvPathPhase_eq_head, ← srvBuildPhase_eq_head]
  cases srvWingetPhase env <;> cases srvPathPhase env <;> cases srvBuildPhase env <;>
    simp [Option.or]

end LlamaServerGuiDetect

namespace LlamaSpec

/-- The flag/value pairs of an argument vector: successive disjoint pairs,
in order. -/
def chunkPairs : List String → List (String × String)
  | f :: v :: rest => (f, v) :: chunkPairs rest
  | _ => []

end LlamaSpec

namespace LlamaGui

open LlamaSpec

/-- The launch precondition exactly as the validation contract words it
for the inference GUI: binary field non-empty, not the sentinel and an
existing file; model field non-empty and an existing file.  (The code
additionally requires a non-blank prompt; see `cliLaunchOk`.) -/
def claimedLaunchOk (fs : FS) (s : State) : Prop :=
  s.llama_binary ≠ "" ∧ s.llama_binary ≠ "llama-cli not found" ∧
  fs.isfile s.llama_binary = true ∧
  s.model_path ≠ "" ∧ fs.isfile s.model_path = true

/-- The launch precondition the inference GUI actually enforces: the
claimed one plus a non-blank prompt. -/
def cliLaunchOk (fs : FS) (s : State) : Prop :=
  claimedLaunchOk fs s ∧ pyStrip s.prompt_widget ≠ ""

end LlamaGui

namespace LlamaServerGui

open LlamaSpec

/-- The launch precondition the server GUI enforces, matching the
validation contract: binary field non-empty, not the sentinel and an
existing file; model field non-empty and an existing file; host non-empty
after stripping; port an integer in `[1, 65535]`. -/
def srvLaunchOk (fs : FS) (s : State) : Prop :=
  s.server_binary ≠ "" ∧ s.server_binary ≠ "llama-server not found" ∧
  fs.isfile s.server_binary = true ∧
  s.model_path ≠ "" ∧ fs.isfile s.model_path = true ∧
  pyStrip s.host ≠ "" ∧
  ∃ p : Int, s.port = some p ∧ 1 ≤ p ∧ p ≤ 65535

end LlamaServerGui

namespace Samples

open LlamaSpec

/-- A filesystem holding exactly the two files the sample states refer to,
everything executable. -/
def fsOk : FS :=
  { isfile := fun p => p == "/bin/llama-cli" || p == "/m.gguf",
    access_x := fun _ => true }

/-- An inference GUI state with a running child, valid paths and a
non-blank prompt. -/
def cliBusyValid : LlamaGui.State :=
  { llama_binary := "/bin/llama-cli", model_path := "/m.gguf",
    prompt_widget := "hello", max_tokens := 512, temperature := "0.8",
    top_p := "0.95", top_k := 40, is_running := true,
    process := some { exitsWithinGrace := true, pollResult := none },
    run_button := ButtonState.disabled, stop_button := ButtonState.normal,
    output := "", status_var := "Running inference..." }

/-- Like `cliBusyValid` but with an empty model field, so validation
fails. -/
def cliBusyInvalid : LlamaGui.State :=
  { cliBusyValid with model_path := "" }

/-- An idle inference GUI state with valid paths and a non-blank
prompt. -/
def cliIdleValid : LlamaGui.State :=
  { cliBusyValid with
      is_running := false
      process := none
      run_button := ButtonState.normal
      stop_button := ButtonState.disabled }

/-- Like `cliIdleValid` but with a blank (whitespace-only) prompt. -/
def cliIdleBlankPrompt : LlamaGui.State :=
  { cliIdleValid with prompt_widget := "   " }

/-- A server filesystem holding the server binary and the model file,
everything executable. -/
def fsSrvOk : FS :=
  { isfile := fun p => p == "/bin/llama-server" || p == "/m.gguf",
    access_x := fun _ => true }

/-- An idle server GUI state with valid settings. -/
def srvIdle : LlamaServerGui.State :=
  { server_binary := "/bin/llama-server", model_path := "/m.gguf",
    host := "127.0.0.1", port := some 8080, temperature := "0.8",
    context_size := 4096, threads := 8,
    endpoint_url := "http://127.0.0.1:8080/v1", server_status := "Stopped",
    current_model := "Unknown", is_running := false, process := none,
    start_button := ButtonState.normal, stop_button := ButtonState.disabled,
    apply_button := ButtonState.normal, output := "",
    status_var := "Ready to start server." }

/-- A server GUI state with a running child and valid settings. -/
def srvBusy : LlamaServerGui.State :=
  { srvIdle with
      is_running := true
      process := some { exitsWithinGrace := true, pollResult := none }
      start_button := ButtonState.disabled
      stop_button := ButtonState.normal
      server_status := "Running" }

end Samples

open LlamaSpec

/-- C1: In the server GUI restart flow, each readiness check invokes
`start_server` exactly when the running flag is clear and the process
handle is absent or reports a non-`None` exit status via `poll()`; in
every other state the check is rescheduled with the same delay, whose
default is 100 ms. -/
theorem C1_restart_starts_only_after_full_exit :
    ∀ (s : LlamaServerGui.State) (delay_ms : Nat),
      (LlamaServerGui.restart_server_after_stop s delay_ms =
          LlamaServerGui.RestartAction.startNow ↔
        s.is_running = false ∧
          (s.process = none ∨
            ∃ p : ProcHandle, s.process = some p ∧ p.pollResult ≠ none)) ∧
      (LlamaServerGui.restart_server_after_stop s delay_ms =
          LlamaServerGui.RestartAction.startNow ∨
        LlamaServerGui.restart_server_after_stop s delay_ms =
          LlamaServerGui.RestartAction.reschedule delay_ms) ∧
      LlamaServerGui.RESTART_POLL_DELAY_MS = 100 := by
  intro s delay_ms
  refine ⟨?_, ?_, rfl⟩ <;>
  · cases hr : s.is_running with
    | true => simp [LlamaServerGui.restart_server_after_stop, hr]
    | false =>
      cases hp : s.process with
      | none => simp [LlamaServerGui.restart_server_after_stop, hr, hp]
      | some p =>
        cases hpr : p.pollResult with
        | none => simp [LlamaServerGui.restart_server_after_stop, hr, hp, hpr]
        | some code => simp [LlamaServerGui.restart_server_after_stop, hr, hp, hpr]

/-- Witness for C1: with the running flag clear and no process handle,
the readiness check starts the server at once. -/
theorem C1_restart_witness :
    LlamaServerGui.restart_server_after_stop Samples.srvIdle 100 =
      LlamaServerGui.RestartAction.startNow :=
  (C1_restart_starts_only_after_full_exit Samples.srvIdle 100).1.mpr
    ⟨rfl, Or.inl rfl⟩

/-- C5: A Stop request issued while a child is active first terminates,
then waits the 5-second grace period, and kills exactly when the child
does not exit within it; on either path the state ends stopped, with the
status texts and buttons updated. -/
theorem C5_stop_grace_then_kill :
    (∀ (s : LlamaGui.State) (p : ProcHandle),
      LlamaGui.stop_inference { s with process := some p, is_running := true } =
        ({ s with
             process := some p
             is_running := false
             status_var := "Inference stopped by user"
             output := s.output ++ "\n\n=== Inference stopped by user ===\n"
             run_button := ButtonState.normal
             stop_button := ButtonState.disabled },
         [LlamaGui.Effect.terminate, LlamaGui.Effect.waitExit (some 5)] ++
           (if p.exitsWithinGrace then [] else [LlamaGui.Effect.kill]))) ∧
    (∀ (s : LlamaServerGui.State) (p : ProcHandle),
      LlamaServerGui.stop_server { s with process := some p, is_running := true } =
        ({ s with
             process := some p
             is_running := false
             status_var := "Server stopped by user."
             output := s.output ++ "\n\n=== Server stopped by user ===\n"
             start_button := ButtonState.normal
             stop_button := ButtonState.disabled
             apply_button := ButtonState.normal
             server_status := "Stopped" },
         [LlamaServerGui.Effect.terminate, LlamaServerGui.Effect.waitExit (some 5)] ++
           (if p.exitsWithinGrace then [] else [LlamaServerGui.Effect.kill]))) :=
  ⟨fun _ _ => rfl, fun _ _ => rfl⟩

/-- C9: The reschedule is not unconditional.  With health 200, a models
response that parses but has the wrong shape — a non-object payload, a
truthy non-array `data` field, or a non-object first element — raises an
exception the `except` clause does not catch, so the tick aborts with no
label update and without scheduling the next poll, and the monitoring
loop permanently stops.  A caught models failure, by contrast, still
reschedules 5000 ms later. -/
theorem C9_poll_dies_on_unshaped_payload :
    LlamaServerGui.poll_server_status "http://127.0.0.1:8080/v1"
        (LlamaServerGui.HealthResult.ok 200)
        (LlamaServerGui.ModelsResult.ok LlamaServerGui.Payload.nonObj) = none ∧
    LlamaServerGui.poll_server_status "http://127.0.0.1:8080/v1"
        (LlamaServerGui.HealthResult.ok 200)
        (LlamaServerGui.ModelsResult.ok (LlamaServerGui.Payload.obj
          (some LlamaServerGui.DataField.scalarTruthy))) = none ∧
    LlamaServerGui.poll_server_status "http://127.0.0.1:8080/v1"
        (LlamaServerGui.HealthResult.ok 200)
        (LlamaServerGui.ModelsResult.ok (LlamaServerGui.Payload.obj
          (some (LlamaServerGui.DataField.list
            [LlamaServerGui.DataElem.nonObjElem])))) = none ∧
    (LlamaServerGui.poll_server_status "http://127.0.0.1:8080/v1"
        (LlamaServerGui.HealthResult.ok 200)
        LlamaServerGui.ModelsResult.err).map
      LlamaServerGui.PollResult.next_delay_ms = some 5000 := by
  exact ⟨by decide, by decide, by decide, by decide⟩

/-- C10: A Stop request with no process handle, or with the running flag
clear, is a no-op: the state is unchanged and no effect is emitted, in
either application. -/
theorem C10_stop_noop_when_inactive :
    (∀ s : LlamaGui.State,
      LlamaGui.stop_inference { s with process := none } =
        ({ s with process := none }, [])) ∧
    (∀ s : LlamaGui.State,
      LlamaGui.stop_inference { s with is_running := false } =
        ({ s with is_running := false }, [])) ∧
    (∀ s : LlamaServerGui.State,
      LlamaServerGui.stop_server { s with process := none } =
        ({ s with process := none }, [])) ∧
    (∀ s : LlamaServerGui.State,
      LlamaServerGui.stop_server { s with is_running := false } =
        ({ s with is_running := false }, [])) := by
  refine ⟨fun s => rfl, fun s => ?_, fun s => rfl, fun s => ?_⟩ <;>
  · cases hp : s.process with
    | none =>
      simp [LlamaGui.stop_inference, LlamaServerGui.stop_server, hp]
    | some p =>
      simp [LlamaGui.stop_inference, LlamaServerGui.stop_server, hp]

/-- C3: A poll tick completes and reports Online with the first listed
model when health returns 200 and the models payload is an object whose
data array starts with an object carrying an id; completes with Offline
and Unknown when the health call fails; completes with Online and Unknown
when health succeeds but the models call fails or its payload does not
decode; and no completed tick ever raises a dialog. -/
theorem C3_poll_outcomes :
    ∀ (base : String), pyStrip base ≠ "" →
      (∀ (m : String) (rest : List LlamaServerGui.DataElem),
        (LlamaServerGui.poll_server_status base (LlamaServerGui.HealthResult.ok 200)
            (LlamaServerGui.ModelsResult.ok (LlamaServerGui.Payload.obj
              (some (LlamaServerGui.DataField.list
                (LlamaServerGui.DataElem.obj (some m) :: rest)))))).map
          LlamaServerGui.PollResult.server_status = some "Online" ∧
        (LlamaServerGui.poll_server_status base (LlamaServerGui.HealthResult.ok 200)
            (LlamaServerGui.ModelsResult.ok (LlamaServerGui.Payload.obj
              (some (LlamaServerGui.DataField.list
                (LlamaServerGui.DataElem.obj (some m) :: rest)))))).map
          LlamaServerGui.PollResult.current_model = some m) ∧
      (∀ (models : LlamaServerGui.ModelsResult),
        (LlamaServerGui.poll_server_status base LlamaServerGui.HealthResult.err
            models).map LlamaServerGui.PollResult.server_status = some "Offline" ∧
        (LlamaServerGui.poll_server_status base LlamaServerGui.HealthResult.err
            models).map LlamaServerGui.PollResult.current_model = some "Unknown") ∧
      ((LlamaServerGui.poll_server_status base (LlamaServerGui.HealthResult.ok 200)
          LlamaServerGui.ModelsResult.err).map
        LlamaServerGui.PollResult.server_status = some "Online" ∧
       (LlamaServerGui.poll_server_status base (LlamaServerGui.HealthResult.ok 200)
          LlamaServerGui.ModelsResult.err).map
        LlamaServerGui.PollResult.current_model = some "Unknown") ∧
      (∀ (u : String) (health : LlamaServerGui.HealthResult)
          (models : LlamaServerGui.ModelsResult) (r : LlamaServerGui.PollResult),
        LlamaServerGui.poll_server_status u health models = some r →
        r.dialogs = []) := by
  intro base hb
  refine ⟨?_, ?_, ?_, ?_⟩
  · intro m rest
    constructor <;>
      simp [LlamaServerGui.poll_server_status, LlamaServerGui.statusLabel,
        LlamaServerGui.modelLabelOnline, hb]
  · intro models
    constructor <;>
      simp [LlamaServerGui.poll_server_status, LlamaServerGui.statusLabel,
        LlamaServerGui.modelLabelOnline, hb]
  · constructor <;>
      simp [LlamaServerGui.poll_server_status, LlamaServerGui.statusLabel,
        LlamaServerGui.modelLabelOnline, hb]
  · intro u health models r hr
    by_cases hu : pyStrip u = ""
    · rw [LlamaServerGui.poll_server_status, if_pos hu] at hr
      injection hr with h
      subst h
      rfl
    · rw [LlamaServerGui.poll_server_status, if_neg hu] at hr
      cases hml : (if LlamaServerGui.statusLabel health = "Online" then
          LlamaServerGui.modelLabelOnline models else some "Unknown") with
      | none => rw [hml] at hr; exact Option.noConfusion hr
      | some label =>
        rw [hml] at hr
        injection hr with h
        subst h
        rfl

/-- Witness for C3: a non-empty endpoint with health 200 and one listed
model completes the tick reporting Online with that model. -/
theorem C3_poll_witness :
    (LlamaServerGui.poll_server_status "http://127.0.0.1:8080/v1"
        (LlamaServerGui.HealthResult.ok 200)
        (LlamaServerGui.ModelsResult.ok (LlamaServerGui.Payload.obj
          (some (LlamaServerGui.DataField.list
            [LlamaServerGui.DataElem.obj (some "m1")]))))).map
      LlamaServerGui.PollResult.server_status = some "Online" ∧
    (LlamaServerGui.poll_server_status "http://127.0.0.1:8080/v1"
        (LlamaServerGui.HealthResult.ok 200)
        (LlamaServerGui.ModelsResult.ok (LlamaServerGui.Payload.obj
          (some (LlamaServerGui.DataField.list
            [LlamaServerGui.DataElem.obj (some "m1")]))))).map
      LlamaServerGui.PollResult.current_model = some "m1" :=
  (C3_poll_outcomes "http://127.0.0.1:8080/v1" (by decide)).1 "m1" []

/-- C7: The argument vector built at launch starts with the binary path
and then consists of exactly one flag/value pair per configured parameter,
each value being the string form of the corresponding field at launch
time, with no flag repeated. -/
theorem C7_command_pairs :
    (∀ s : LlamaGui.State,
      (LlamaGui.cliCommand s).head? = some s.llama_binary ∧
      chunkPairs (LlamaGui.cliCommand s).tail =
        [("-m", s.model_path), ("-p", pyStrip s.prompt_widget),
         ("-n", toString s.max_tokens), ("--temp", s.temperature),
         ("--top-p", s.top_p), ("--top-k", toString s.top_k)] ∧
      (chunkPairs (LlamaGui.cliCommand s).tail).map Prod.fst =
        ["-m", "-p", "-n", "--temp", "--top-p", "--top-k"]) ∧
    (["-m", "-p", "-n", "--temp", "--top-p", "--top-k"] : List String).Nodup ∧
    (∀ (s : LlamaServerGui.State) (p : Int) (cmd : List String),
      LlamaServerGui.build_command { s with port := some p } = some cmd →
      cmd.head? = some s.server_binary ∧
      chunkPairs cmd.tail =
        [("--model", s.model_path), ("--host", pyStrip s.host),
         ("--port", toString p), ("--temp", s.temperature),
         ("--ctx-size", toString s.context_size),
         ("--threads", toString s.threads)] ∧
      (chunkPairs cmd.tail).map Prod.fst =
        ["--model", "--host", "--port", "--temp", "--ctx-size", "--threads"]) ∧
    (["--model", "--host", "--port", "--temp", "--ctx-size", "--threads"] :
      List String).Nodup := by
  refine ⟨fun s => ⟨rfl, rfl, rfl⟩, by decide, ?_, by decide⟩
  intro s p cmd h
  have hc : cmd =
      [ s.server_binary, "--model", s.model_path, "--host", pyStrip s.host,
        "--port", toString p, "--temp", s.temperature,
        "--ctx-size", toString s.context_size,
        "--threads", toString s.threads ] := by
    have h' := h.symm.trans (rfl : LlamaServerGui.build_command { s with port := some p } =
      some [ s.server_binary, "--model", s.model_path, "--host", pyStrip s.host,
             "--port", toString p, "--temp", s.temperature,
             "--ctx-size", toString s.context_size,
             "--threads", toString s.threads ])
    exact Option.some.inj h'
  subst hc
  exact ⟨rfl, rfl, rfl⟩

/-- Witness for C7: the server command built from the sample idle state. -/
theorem C7_command_witness :
    chunkPairs ([ "/bin/llama-server", "--model", "/m.gguf", "--host",
        "127.0.0.1", "--port", "8080", "--temp", "0.8", "--ctx-size", "4096",
        "--threads", "8" ] : List String).tail =
      [("--model", "/m.gguf"), ("--host", "127.0.0.1"), ("--port", "8080"),
       ("--temp", "0.8"), ("--ctx-size", "4096"), ("--threads", "8")] := by
  have h := (C7_command_pairs.2.2.1 Samples.srvIdle 8080
      [ "/bin/llama-server", "--model", "/m.gguf", "--host", "127.0.0.1",
        "--port", "8080", "--temp", "0.8", "--ctx-size", "4096",
        "--threads", "8" ] (by decide)).2.1
  exact h

/-- Counterexample for C2: with a child already running but an empty model
field, a start request is rejected through the validation error dialog,
not the warning dialog the claim names — validation runs before the
running-flag check. -/
theorem C2_second_start_dialog_counterexample :
    Samples.cliBusyInvalid.is_running = true ∧
    LlamaGui.run_inference Samples.fsOk Samples.cliBusyInvalid =
      (Samples.cliBusyInvalid,
       [LlamaGui.Effect.dialogError "Please select a model file."]) := by
  exact ⟨rfl, by decide⟩

/-- C2 (amended): While a child is running, a start request never spawns
and never changes state; it is rejected with the warning dialog when the
inputs validate, and with the validation error dialog otherwise. -/
theorem C2_second_start_rejected_amended :
    (∀ (fs : FS) (s : LlamaGui.State), s.is_running = true →
      LlamaGui.run_inference fs s =
        (s, [match LlamaGui.validate_inputs fs s with
             | some m => LlamaGui.Effect.dialogError m
             | none =>
               LlamaGui.Effect.dialogWarning "Inference is already running."])) ∧
    (∀ (fs : FS) (s : LlamaServerGui.State), s.is_running = true →
      LlamaServerGui.start_server fs s =
        (s, [match LlamaServerGui.validate_inputs fs s with
             | some m => LlamaServerGui.Effect.dialogError m
             | none =>
               LlamaServerGui.Effect.dialogWarning "Server is already running."])) := by
  constructor
  · intro fs s hr
    cases hv : LlamaGui.validate_inputs fs s with
    | some m => simp [LlamaGui.run_inference, hv]
    | none => simp [LlamaGui.run_inference, hv, hr]
  · intro fs s hr
    cases hv : LlamaServerGui.validate_inputs fs s with
    | some m => simp [LlamaServerGui.start_server, hv]
    | none => simp [LlamaServerGui.start_server, hv, hr]

/-- Witness for C2: with a running child and valid inputs, the start
request is rejected with the warning dialog and the state unchanged. -/
theorem C2_second_start_witness :
    LlamaGui.run_inference Samples.fsOk Samples.cliBusyValid =
      (Samples.cliBusyValid,
       [LlamaGui.Effect.dialogWarning "Inference is already running."]) := by
  have h := C2_second_start_rejected_amended.1 Samples.fsOk Samples.cliBusyValid rfl
  exact h

/-- Counterexample for C4: binary and model satisfy every condition the
claim lists for the inference GUI, yet validation fails, because the code
additionally rejects a blank prompt. -/
theorem C4_validation_counterexample :
    LlamaGui.claimedLaunchOk Samples.fsOk Samples.cliIdleBlankPrompt ∧
    LlamaGui.validate_inputs Samples.fsOk Samples.cliIdleBlankPrompt =
      some "Please enter a prompt." ∧
    LlamaGui.run_inference Samples.fsOk Samples.cliIdleBlankPrompt =
      (Samples.cliIdleBlankPrompt,
       [LlamaGui.Effect.dialogError "Please enter a prompt."]) := by
  refine ⟨?_, by decide, by decide⟩
  exact ⟨by decide, by decide, by decide, by decide, by decide⟩

/-- C4 (amended): validation passes exactly under the claimed conditions
plus, for the inference GUI, a non-blank prompt; on failure the start
request aborts with the error dialog and no state change. -/
theorem C4_validation_amended :
    (∀ (fs : FS) (s : LlamaGui.State),
      (LlamaGui.validate_inputs fs s = none ↔ LlamaGui.cliLaunchOk fs s) ∧
      ∀ m, LlamaGui.validate_inputs fs s = some m →
        LlamaGui.run_inference fs s = (s, [LlamaGui.Effect.dialogError m])) ∧
    (∀ (fs : FS) (s : LlamaServerGui.State),
      (LlamaServerGui.validate_inputs fs s = none ↔
        LlamaServerGui.srvLaunchOk fs s) ∧
      ∀ m, LlamaServerGui.validate_inputs fs s = some m →
        LlamaServerGui.start_server fs s = (s, [LlamaServerGui.Effect.dialogError m])) := by
  constructor
  · intro fs s
    constructor
    · unfold LlamaGui.validate_inputs LlamaGui.cliLaunchOk LlamaGui.claimedLaunchOk
      split_ifs with h1 h2 h3 h4 h5 <;> simp_all <;> tauto
    · intro m hm
      simp [LlamaGui.run_inference, hm]
  · intro fs s
    constructor
    · unfold LlamaServerGui.validate_inputs LlamaServerGui.srvLaunchOk
      cases hp : s.port with
      | none => split_ifs with h1 h2 h3 h4 h5 <;> simp_all <;> tauto
      | some p => split_ifs with h1 h2 h3 h4 h5 h6 <;> simp_all <;> try tauto
    · intro m hm
      simp [LlamaServerGui.start_server, hm]

/-- Witness for C4: the sample idle states validate in both applications,
and an empty binary field aborts with its error dialog. -/
theorem C4_validation_witness :
    LlamaGui.validate_inputs Samples.fsOk Samples.cliIdleValid = none ∧
    LlamaServerGui.validate_inputs Samples.fsSrvOk Samples.srvIdle = none ∧
    LlamaGui.run_inference Samples.fsOk
        { Samples.cliIdleValid with llama_binary := "" } =
      ({ Samples.cliIdleValid with llama_binary := "" },
       [LlamaGui.Effect.dialogError "Please specify the llama-cli binary path."]) := by
  refine ⟨?_, ?_, ?_⟩
  · exact (C4_validation_amended.1 Samples.fsOk Samples.cliIdleValid).1.mpr
      ⟨⟨by decide, by decide, by decide, by decide, by decide⟩, by decide⟩
  · exact (C4_validation_amended.2 Samples.fsSrvOk Samples.srvIdle).1.mpr
      ⟨by decide, by decide, by decide, by decide, by decide, by decide,
       8080, rfl, by decide, by decide⟩
  · exact (C4_validation_amended.1 Samples.fsOk
      { Samples.cliIdleValid with llama_binary := "" }).2 _ (by decide)

namespace Samples

/-- A search environment whose only candidate is a build-directory file
with no execute permission anywhere. -/
def srvEnvNoExec : LlamaGui.SearchEnv :=
  { windows := false, wingetRoots := [], pathDirs := [""],
    fs := { isfile := fun p => p == "build/bin/llama-server",
            access_x := fun _ => false },
    abspath := fun p => "/cwd/" ++ p }

end Samples

/-- Counterexample for C6: the locator returns a build-directory candidate
that is an existing file but has no execute permission — the
executable-file requirement the claim states for every returned path is
only enforced for PATH candidates. -/
theorem C6_locator_counterexample :
    LlamaServerGuiDetect.detect_server_binary Samples.srvEnvNoExec =
      "/cwd/build/bin/llama-server" ∧
    Samples.srvEnvNoExec.fs.isfile "build/bin/llama-server" = true ∧
    Samples.srvEnvNoExec.fs.access_x "build/bin/llama-server" = false ∧
    Samples.srvEnvNoExec.fs.access_x "/cwd/build/bin/llama-server" = false := by
  exact ⟨by decide, by decide, rfl, rfl⟩

/-- C6 (amended): each locator returns the first accepted candidate along
its search order — winget-walk matches by directory-listing membership
(no permission check), PATH candidates that are existing executable
files, build-directory candidates that are existing files returned as
absolute paths — and the sentinel when none exists. -/
theorem C6_locator_amended :
    (∀ env : LlamaGui.SearchEnv,
      LlamaGui.detect_llama_binary env =
        ((LlamaGui.cliAcceptedCandidates env).head?).getD "llama-cli not found") ∧
    (∀ env : LlamaGui.SearchEnv,
      LlamaServerGuiDetect.detect_server_binary env =
        ((LlamaServerGuiDetect.srvAcceptedCandidates env).head?).getD
          "llama-server not found") :=
  ⟨LlamaGui.detect_llama_binary_eq_head,
   LlamaServerGuiDetect.detect_server_binary_eq_head⟩

namespace Samples

open LlamaSpec

/-- A winget-root walk tree that is a single chain six levels deep, with
the candidate file at the deepest directory (depth measure `5`). -/
def deepWingetTree : DirTree :=
  DirTree.mk "w" []
    [DirTree.mk "w/1" []
      [DirTree.mk "w/1/2" []
        [DirTree.mk "w/1/2/3" []
          [DirTree.mk "w/1/2/3/4" []
            [DirTree.mk "w/1/2/3/4/5" []
              [DirTree.mk "w/1/2/3/4/5/6" ["llama-cli.exe"] []]]]]]]

end Samples

/-- Counterexample for C8: the inference GUI walk examines a directory six
levels below the winget root (depth measure `5 > 4`) and returns its file
— that walk has no depth limit; the same tree under the server walk
(candidate name substituted) is pruned and yields nothing. -/
theorem C8_depth_counterexample :
    LlamaGui.cliWalkFind Samples.deepWingetTree =
      some "w/1/2/3/4/5/6/llama-cli.exe" ∧
    ({ depth := 5, path := "w/1/2/3/4/5/6", files := ["llama-cli.exe"] } :
        WalkEntry) ∈ LlamaGui.cliWalkYielded Samples.deepWingetTree ∧
    LlamaServerGuiDetect.srvWalkFind ["llama-cli.exe"] Samples.deepWingetTree =
      none := by
  exact ⟨by decide, by decide, by decide⟩

/-- C8 (amended): only the server locator depth-limits its walk — it
never examines the files of a directory whose relative-path separator
count exceeds `4` (six or more levels below the root), and its pruning
keeps the walk from yielding anything deeper than measure `5`; the
inference GUI walk has no depth limit. -/
theorem C8_depth_amended :
    (∀ (t : DirTree) (e : WalkEntry),
      e ∈ LlamaServerGuiDetect.srvWalkExamined t → e.depth ≤ 4) ∧
    (∀ (t : DirTree) (e : WalkEntry),
      e ∈ LlamaServerGuiDetect.srvWalkYielded t → e.depth ≤ 5) ∧
    (∀ (names : List String) (e : WalkEntry),
      4 < e.depth → LlamaServerGuiDetect.srvWalkHit names e = none) :=
  ⟨fun t e h => LlamaServerGuiDetect.srvWalkExamined_depth_le t e h,
   fun t e h => LlamaServerGuiDetect.srvWalkYielded_depth_le t e h,
   fun names e h => LlamaServerGuiDetect.srvWalkHit_skip names e h⟩

/-- Witness for C8: the root of a one-directory tree is examined at depth
measure `0`, and a measure-5 directory is skipped by the loop body. -/
theorem C8_depth_witness :
    ({ depth := 0, path := "w", files := [] } : WalkEntry).depth ≤ 4 ∧
    LlamaServerGuiDetect.srvWalkHit ["s"]
      { depth := 5, path := "x", files := ["s"] } = none :=
  ⟨C8_depth_amended.1 (DirTree.mk "w" [] [])
     { depth := 0, path := "w", files := [] } (by decide),
   C8_depth_amended.2.2 ["s"] { depth := 5, path := "x", files := ["s"] }
     (by decide)⟩
